import Mathlib

/-!
Verification development for the place-search aggregation and ranking pipeline
of a map single-page application.  The definitions below are a shallow
embedding of the TypeScript source: coordinates are modelled as rationals,
real-valued trigonometry (the haversine distance) is modelled over the real
numbers, provider calls are modelled by explicit lists of pages and arrival
sequences, and the asynchronous fan-in is modelled as a fold over the arrival
order of the candidate records.
-/

/-- A latitude/longitude pair in degrees. -/
structure Coord where
  lat : ℚ
  lng : ℚ
deriving DecidableEq, Repr

/-- A viewport rectangle given by its northeast and southwest corners. -/
structure Bounds where
  ne : Coord
  sw : Coord
deriving DecidableEq, Repr

/-- Embedding of the `GeocodingResult` interface of the API service module:
a provider-sourced candidate record.  An empty `place_id`, `name` or
`formatted_address` models the corresponding missing string. -/
structure GeocodingResult where
  place_id : String
  name : String
  formatted_address : String
  lat : ℚ
  lng : ℚ
  rating : Option ℚ
  user_ratings_total : Option ℕ
  types : List String
  photos : List String
deriving DecidableEq, Repr

/-- The display type assigned by the presentation mapper (`convertToLocation`). -/
inductive LocationType where
  | restaurant
  | hotel
  | attraction
  | business
  | other
deriving DecidableEq, Repr

/-- Embedding of the application `Location` interface (display record). -/
structure Location where
  id : String
  place_id : String
  name : String
  address : String
  latitude : ℚ
  longitude : ℚ
  type : LocationType
  rating : Option ℚ
  user_ratings_total : Option ℕ
  description : String
  photos : List String
deriving DecidableEq, Repr

/-! ### String helpers

JavaScript string operations used by the source (`toLowerCase`, `includes`,
`trim`) are modelled at the level of character lists so that they compute by
kernel reduction. -/

/-- Model of `query.toLowerCase()` as a list of characters. -/
def lowerChars (s : String) : List Char :=
  s.data.map Char.toLower

/-- Does `text` start with `pat`?  Helper for the `includes` model. -/
def startsWithSeq : List Char → List Char → Bool
  | [], _ => true
  | _ :: _, [] => false
  | p :: ps, t :: ts => p == t && startsWithSeq ps ts

/-- Model of JavaScript `text.includes(pat)`: `pat` occurs contiguously in
`text`. -/
def containsSeq (pat : List Char) : List Char → Bool
  | [] => pat.isEmpty
  | t :: ts => startsWithSeq pat (t :: ts) || containsSeq pat ts

/-- Model of JavaScript `s.trim()`: strip leading and trailing whitespace. -/
def trimChars (cs : List Char) : List Char :=
  ((cs.dropWhile Char.isWhitespace).reverse.dropWhile Char.isWhitespace).reverse

/-! ### Category classifier

`detectCategoryFromQuery` in `App.tsx` and the auto-detection block at the
top of `searchLocations` in the API module perform the identical keyword
test, in the fixed order restaurant, hotel, attraction, shopping, cafe. -/

/-- Embedding of the category detector: lower-case the query and test the
per-category keyword sets in fixed priority order. -/
def detectCategoryFromQuery (query : String) : Option String :=
  let lowerQuery := lowerChars query
  if containsSeq "restaurant".data lowerQuery || containsSeq "food".data lowerQuery ||
      containsSeq "dining".data lowerQuery then
    some "restaurants"
  else if containsSeq "hotel".data lowerQuery || containsSeq "lodging".data lowerQuery ||
      containsSeq "accommodation".data lowerQuery then
    some "hotels"
  else if containsSeq "attraction".data lowerQuery || containsSeq "tourist".data lowerQuery ||
      containsSeq "museum".data lowerQuery then
    some "attractions"
  else if containsSeq "shopping".data lowerQuery || containsSeq "mall".data lowerQuery ||
      containsSeq "store".data lowerQuery then
    some "shopping"
  else if containsSeq "cafe".data lowerQuery || containsSeq "coffee".data lowerQuery ||
      containsSeq "coffee shop".data lowerQuery then
    some "cafes"
  else
    none

/-- Embedding of the category-to-provider-type `switch` inside
`searchLocations` (five categories, no `establishment` case). -/
def placeTypeOfCategorySL (category : String) : Option String :=
  match category with
  | "restaurants" => some "restaurant"
  | "hotels" => some "lodging"
  | "attractions" => some "tourist_attraction"
  | "shopping" => some "shopping_mall"
  | "cafes" => some "cafe"
  | _ => none

/-- Embedding of the category-to-provider-type `switch` inside
`searchLocationsByDistanceAndPopularity` (accepts plural and singular
spellings and the generic `establishment`). -/
def placeTypeOfCategory (category : String) : Option String :=
  match category with
  | "restaurants" | "restaurant" => some "restaurant"
  | "hotels" | "lodging" => some "lodging"
  | "attractions" | "tourist_attraction" => some "tourist_attraction"
  | "shopping" | "shopping_mall" | "store" => some "shopping_mall"
  | "cafes" | "cafe" => some "cafe"
  | "establishment" => some "establishment"
  | _ => none

/-- Embedding of the per-tag acceptance `switch` used by the type filter of
`searchLocations` (no `establishment` case; unknown types default to
accepted). -/
def tagMatchesSL (placeType tag : String) : Bool :=
  match placeType with
  | "restaurant" => tag == "restaurant" || tag == "food" || tag == "meal_takeaway" ||
      tag == "meal_delivery"
  | "lodging" => tag == "lodging" || tag == "hotel"
  | "tourist_attraction" => tag == "tourist_attraction" || tag == "point_of_interest"
  | "shopping_mall" => tag == "shopping_mall" || tag == "store" || tag == "shopping"
  | "cafe" => tag == "cafe" || tag == "food"
  | _ => true

/-- Embedding of the per-tag acceptance `switch` used by the type filter of
`searchLocationsByDistanceAndPopularity` (adds the `establishment` case). -/
def tagMatches (placeType tag : String) : Bool :=
  match placeType with
  | "restaurant" => tag == "restaurant" || tag == "food" || tag == "meal_takeaway" ||
      tag == "meal_delivery"
  | "lodging" => tag == "lodging" || tag == "hotel"
  | "tourist_attraction" => tag == "tourist_attraction" || tag == "point_of_interest"
  | "shopping_mall" => tag == "shopping_mall" || tag == "store" || tag == "shopping"
  | "cafe" => tag == "cafe" || tag == "food"
  | "establishment" => tag == "establishment" || tag == "point_of_interest" ||
      tag == "store" || tag == "restaurant" || tag == "lodging" ||
      tag == "tourist_attraction" || tag == "cafe" || tag == "food"
  | _ => true

/-- The guarded type filter of `searchLocations`: a record is rejected only
when a place type was resolved, the record carries at least one provider tag,
and none of its tags is accepted. -/
def passesTypeFilterSL (placeType : Option String) (types : List String) : Bool :=
  match placeType with
  | some pt => if types = [] then true else types.any (tagMatchesSL pt)
  | none => true

/-- The guarded type filter of `searchLocationsByDistanceAndPopularity`. -/
def passesTypeFilter (category : String) (types : List String) : Bool :=
  match placeTypeOfCategory category with
  | some pt => if types = [] then true else types.any (tagMatches pt)
  | none => true

/-- Embedding of the `isWithinBounds` helper: all results are accepted when
no bounds were supplied, otherwise the point must lie inside the rectangle. -/
def isWithinBounds (bounds : Option Bounds) (lat lng : ℚ) : Bool :=
  match bounds with
  | none => true
  | some b =>
      decide (b.sw.lat ≤ lat) && decide (lat ≤ b.ne.lat) &&
      decide (b.sw.lng ≤ lng) && decide (lng ≤ b.ne.lng)

/-- The record actually pushed onto the accumulator by `addUniqueResults`:
fields are copied from the arriving record, with the literal fallbacks
`Unknown` for an empty name and `No address available` for an empty
address. -/
def storedRecord (p : GeocodingResult) : GeocodingResult :=
  { place_id := p.place_id
    name := if p.name = "" then "Unknown" else p.name
    formatted_address :=
      if p.formatted_address = "" then "No address available" else p.formatted_address
    lat := p.lat
    lng := p.lng
    rating := p.rating
    user_ratings_total := p.user_ratings_total
    types := p.types
    photos := p.photos }

/-- The mutable accumulator of one search: the `seenPlaceIds` set and the
`allResults` list. -/
structure SearchState where
  seen : List String
  acc : List GeocodingResult
deriving DecidableEq, Repr

/-- Processing of one arriving record by the `addUniqueResults` closure of
`searchLocationsByDistanceAndPopularity`: records with an empty or
already-seen identifier are skipped, then the category tag filter and the
bounds filter are applied, and only then is the record recorded. -/
def addOne (category : String) (bounds : Option Bounds) (st : SearchState)
    (p : GeocodingResult) : SearchState :=
  if p.place_id ≠ "" ∧ p.place_id ∉ st.seen then
    if passesTypeFilter category p.types then
      if isWithinBounds bounds p.lat p.lng then
        { seen := p.place_id :: st.seen, acc := st.acc ++ [storedRecord p] }
      else st
    else st
  else st

/-- The fan-in of all strategies of `searchLocationsByDistanceAndPopularity`,
folded over the records in their order of arrival. -/
def addUniqueResults (category : String) (bounds : Option Bounds) (st : SearchState)
    (places : List GeocodingResult) : SearchState :=
  places.foldl (addOne category bounds) st

/-- Processing of one arriving record by the `addUniqueResults` closure of
`searchLocations` (same deduplication and tag filter, no bounds filter). -/
def addOneSL (placeType : Option String) (st : SearchState) (p : GeocodingResult) :
    SearchState :=
  if p.place_id ≠ "" ∧ p.place_id ∉ st.seen then
    if passesTypeFilterSL placeType p.types then
      { seen := p.place_id :: st.seen, acc := st.acc ++ [storedRecord p] }
    else st
  else st

/-- The fan-in of the strategies of `searchLocations`, folded over the
records in their order of arrival. -/
def addUniqueResultsSL (placeType : Option String) (st : SearchState)
    (places : List GeocodingResult) : SearchState :=
  places.foldl (addOneSL placeType) st

/-- Embedding of which board type `convertToLocation` assigns from the
provider tag list, tested in fixed priority order. -/
def locationTypeOf (types : List String) : LocationType :=
  if types.contains "restaurant" || types.contains "food" then .restaurant
  else if types.contains "lodging" || types.contains "hotel" then .hotel
  else if types.contains "tourist_attraction" || types.contains "point_of_interest" then
    .attraction
  else if types.contains "establishment" || types.contains "store" then .business
  else .other

/-- Embedding of `convertToLocation`: the presentation mapping from a
provider record to a display location.  The name falls back to the literal
`Unknown Location` when empty; the address is copied through unchanged. -/
def convertToLocation (r : GeocodingResult) : Location :=
  { id := r.place_id
    place_id := r.place_id
    name := if r.name = "" then "Unknown Location" else r.name
    address := r.formatted_address
    latitude := r.lat
    longitude := r.lng
    type := locationTypeOf r.types
    rating := r.rating
    user_ratings_total := r.user_ratings_total
    description := r.formatted_address
    photos := r.photos }

/-! ### Places provider adapter

`ModernPlacesAPI.textSearch` wraps the provider callback protocol.  The
provider is modelled as the list of pages it would deliver; each page carries
a status, raw place objects with optional fields, and a continuation flag. -/

/-- The enumerated provider status values. -/
inductive PlacesStatus where
  | ok
  | zeroResults
  | overQueryLimit
  | requestDenied
  | invalidRequest
  | unknownError
deriving DecidableEq, Repr

/-- A raw provider place object, every field possibly absent. -/
structure RawPlace where
  place_id : Option String
  name : Option String
  formatted_address : Option String
  lat : Option ℚ
  lng : Option ℚ
  rating : Option ℚ
  user_ratings_total : Option ℕ
  types : Option (List String)
  photos : Option (List String)
deriving DecidableEq, Repr

/-- JavaScript `v || d` on an optional string: the default is used both for
an absent and for an empty string. -/
def strOr (v : Option String) (d : String) : String :=
  match v with
  | none => d
  | some s => if s = "" then d else s

/-- The conversion applied to every raw place inside the adapter callbacks:
`place_id` defaults to the empty string, `name` to `Unknown`,
`formatted_address` to `No address available`, coordinates to `0`, tag and
photo lists to `[]`. -/
def convertRaw (p : RawPlace) : GeocodingResult :=
  { place_id := p.place_id.getD ""
    name := strOr p.name "Unknown"
    formatted_address := strOr p.formatted_address "No address available"
    lat := p.lat.getD 0
    lng := p.lng.getD 0
    rating := p.rating
    user_ratings_total := p.user_ratings_total
    types := p.types.getD []
    photos := p.photos.getD [] }

/-- One page of a provider response together with its continuation flag. -/
structure ProviderPage where
  status : PlacesStatus
  results : List RawPlace
  hasNextPage : Bool
deriving DecidableEq, Repr

/-- The pagination loop of `ModernPlacesAPI.textSearch`: on an `ok` page the
converted results are accumulated and the next page is requested while the
continuation flag is set and fewer than 60 records have been gathered; on any
other status the promise resolves with whatever has been accumulated. -/
def runTextSearch : List ProviderPage → List GeocodingResult → List GeocodingResult
  | [], acc => acc
  | page :: rest, acc =>
      if page.status = PlacesStatus.ok then
        let acc2 := acc ++ page.results.map convertRaw
        if page.hasNextPage ∧ acc2.length < 60 then runTextSearch rest acc2 else acc2
      else acc

/-- Embedding of `ModernPlacesAPI.textSearch`: the promise rejects exactly
when the external SDK is not loaded; otherwise it resolves with the
accumulated pages. -/
def textSearchModel (sdkLoaded : Bool) (pages : List ProviderPage) :
    Except String (List GeocodingResult) :=
  if sdkLoaded then Except.ok (runTextSearch pages []) else
    Except.error "Google Maps API not loaded"

/-! ### Relevance ranking (geo math)

`calculateDistance` is the haversine formula over IEEE doubles; it is
modelled over the real numbers.  `Math.atan2` is modelled by its standard
mathematical definition (the source only ever applies it to non-negative
arguments). -/

/-- Model of `Math.atan2 y x`. -/
noncomputable def atan2 (y x : ℝ) : ℝ :=
  if 0 < x then Real.arctan (y / x)
  else if x < 0 then
    (if 0 ≤ y then Real.arctan (y / x) + Real.pi else Real.arctan (y / x) - Real.pi)
  else
    (if 0 < y then Real.pi / 2 else if y < 0 then -(Real.pi / 2) else 0)

/-- The intermediate value `a` of `calculateDistance`:
`sin(dLat/2)^2 + cos(lat1·π/180)·cos(lat2·π/180)·sin(dLng/2)^2` with
`dLat = (lat2-lat1)·π/180` and `dLng = (lng2-lng1)·π/180`. -/
noncomputable def havA (lat1 lng1 lat2 lng2 : ℚ) : ℝ :=
  Real.sin (((lat2 : ℝ) - (lat1 : ℝ)) * Real.pi / 180 / 2) *
    Real.sin (((lat2 : ℝ) - (lat1 : ℝ)) * Real.pi / 180 / 2) +
  Real.cos ((lat1 : ℝ) * Real.pi / 180) * Real.cos ((lat2 : ℝ) * Real.pi / 180) *
    (Real.sin (((lng2 : ℝ) - (lng1 : ℝ)) * Real.pi / 180 / 2) *
      Real.sin (((lng2 : ℝ) - (lng1 : ℝ)) * Real.pi / 180 / 2))

/-- Embedding of `calculateDistance`: the haversine great-circle distance in
kilometres, with Earth radius `R = 6371` and
`c = 2 · atan2(sqrt a, sqrt (1 - a))`. -/
noncomputable def calculateDistance (lat1 lng1 lat2 lng2 : ℚ) : ℝ :=
  6371 * (2 * atan2 (Real.sqrt (havA lat1 lng1 lat2 lng2))
    (Real.sqrt (1 - havA lat1 lng1 lat2 lng2)))

/-- The linear distance falloff used by the ranker, as a function of the
distance in kilometres. -/
noncomputable def scoreOfDistance (d : ℝ) : ℝ :=
  max 0 (1 - d / 50)

/-- Embedding of `calculateScore`: the purely distance-based relevance score
of a record relative to the search center. -/
noncomputable def calculateScore (center : Coord) (p : GeocodingResult) : ℝ :=
  max 0 (1 - calculateDistance center.lat center.lng p.lat p.lng / 50)

/-- The comparator order of the final `allResults.sort`: the JavaScript
comparator returns `scoreB - scoreA`, so `a` may precede `b` exactly when the
score of `b` does not exceed the score of `a`. -/
noncomputable def scoreLe (center : Coord) (a b : GeocodingResult) : Bool :=
  decide (calculateScore center b ≤ calculateScore center a)

/-- The sorting step of `searchLocationsByDistanceAndPopularity`, modelled by
a stable merge sort under the comparator order (JavaScript `Array.sort` is
specified to be stable). -/
noncomputable def sortResults (center : Coord) (l : List GeocodingResult) :
    List GeocodingResult :=
  l.mergeSort (scoreLe center)

/-- The final output of `searchLocationsByDistanceAndPopularity`: the sorted
accumulator truncated to `maxResults`. -/
noncomputable def limitResults (center : Coord) (maxResults : ℕ)
    (l : List GeocodingResult) : List GeocodingResult :=
  (sortResults center l).take maxResults

/-- Embedding of `searchLocationsByDistanceAndPopularity`: it throws exactly
when the SDK is unavailable; otherwise the strategy results (given by their
arrival order) are deduplicated and filtered, then sorted by score and
truncated. -/
noncomputable def searchByDistanceModel (category : String) (center : Coord)
    (maxResults : ℕ) (bounds : Option Bounds) (sdkLoaded : Bool)
    (arrivals : List GeocodingResult) : Except String (List GeocodingResult) :=
  if sdkLoaded then
    Except.ok (limitResults center maxResults
      (addUniqueResults category bounds ⟨[], []⟩ arrivals).acc)
  else Except.error "Google Maps API not available"

/-! ### The top-level search of `App.tsx` -/

/-- The `maxSearchResults` application setting. -/
def maxSearchResults : ℕ := 80

/-- The provider-side inputs one `performSearch` run can observe: whether the
SDK is loaded, the pages the primary text search would deliver, and the
arrival sequence of the fallback distance search strategies. -/
structure AppSearchEnv where
  sdkLoaded : Bool
  textPages : List ProviderPage
  strategyArrivals : List GeocodingResult
deriving Repr

/-- Embedding of `performSearch` in `App.tsx`: a blank query (or a map with
no center yet) short-circuits to an empty result list without any provider
call; otherwise one text search is issued (the commented-out bounds filter is
omitted, as in the source), falling back on rejection to the distance search
with the detected category or `establishment`.  The second component counts
the provider strategy calls that were issued (the fallback launches seven
strategies: text, nearby, find-by-query and four query variants). -/
noncomputable def performSearch (query : String) (center : Option Coord)
    (bounds : Option Bounds) (env : AppSearchEnv) : List Location × ℕ :=
  if trimChars query.data = [] then ([], 0)
  else
    match center with
    | none => ([], 0)
    | some c =>
        match textSearchModel env.sdkLoaded env.textPages with
        | Except.ok rs => (rs.map convertToLocation, 1)
        | Except.error _ =>
            let category := (detectCategoryFromQuery query).getD "establishment"
            match searchByDistanceModel category c maxSearchResults bounds
                env.sdkLoaded env.strategyArrivals with
            | Except.ok rs => (rs.map convertToLocation, 1 + 7)
            | Except.error _ => ([], 1 + 7)

/-! ### Concrete records used by the closed scenario statements -/

/-- A candidate tagged only as lodging. -/
def lodgingCand : GeocodingResult :=
  { place_id := "L1", name := "Lodge", formatted_address := "1 Lodge Way",
    lat := 0, lng := 0, rating := none, user_ratings_total := none,
    types := ["lodging"], photos := [] }

/-- A candidate tagged as a restaurant serving food. -/
def sushiCand : GeocodingResult :=
  { place_id := "R1", name := "Sushi Bar", formatted_address := "2 Fish St",
    lat := 0, lng := 0, rating := none, user_ratings_total := none,
    types := ["restaurant", "food"], photos := [] }

/-- A record with identifier `abc123` and rating 4. -/
def dupFirst : GeocodingResult :=
  { place_id := "abc123", name := "First Arrival", formatted_address := "3 First St",
    lat := 0, lng := 0, rating := some 4, user_ratings_total := some 10,
    types := ["restaurant"], photos := [] }

/-- A record with the same identifier `abc123` but rating 1. -/
def dupSecond : GeocodingResult :=
  { place_id := "abc123", name := "Second Arrival", formatted_address := "4 Second St",
    lat := 0, lng := 0, rating := some 1, user_ratings_total := some 99,
    types := ["restaurant"], photos := [] }

/-- A record with no identifier that passes every filter. -/
def noIdCand : GeocodingResult :=
  { place_id := "", name := "Nameless Diner", formatted_address := "5 Ghost Rd",
    lat := 0, lng := 0, rating := none, user_ratings_total := none,
    types := ["restaurant"], photos := [] }

/-- A record whose name and address are both missing. -/
def blankResult : GeocodingResult :=
  { place_id := "B1", name := "", formatted_address := "",
    lat := 0, lng := 0, rating := none, user_ratings_total := none,
    types := [], photos := [] }

/-- A simple square of bounds around the origin. -/
def unitBounds : Bounds :=
  { ne := { lat := 1, lng := 1 }, sw := { lat := -1, lng := -1 } }

/-- A candidate inside `unitBounds`. -/
def insideCand : GeocodingResult :=
  { place_id := "IN1", name := "Inside", formatted_address := "6 Center Sq",
    lat := 0, lng := 0, rating := none, user_ratings_total := none,
    types := [], photos := [] }

/-- A candidate outside `unitBounds`. -/
def outsideCand : GeocodingResult :=
  { place_id := "OUT1", name := "Outside", formatted_address := "7 Far Ave",
    lat := 2, lng := 0, rating := none, user_ratings_total := none,
    types := [], photos := [] }

/-- A provider page reporting zero results. -/
def zeroPage : ProviderPage :=
  { status := PlacesStatus.zeroResults, results := [], hasNextPage := false }

/-! ## Helper lemmas -/

/-- A record whose identifier is already in the seen set leaves the
accumulator state untouched. -/
theorem addOne_eq_of_mem_seen (category : String) (bounds : Option Bounds)
    (st : SearchState) (p : GeocodingResult) (h : p.place_id ∈ st.seen) :
    addOne category bounds st p = st := by
  simp [addOne, h]

/-- `addOne` preserves the invariant that accumulated identifiers are
pairwise distinct and all recorded in the seen set. -/
theorem addOne_ids_invariant (category : String) (bounds : Option Bounds)
    (st : SearchState) (p : GeocodingResult)
    (h1 : (st.acc.map (fun r => r.place_id)).Nodup)
    (h2 : ∀ r ∈ st.acc, r.place_id ∈ st.seen) :
    ((addOne category bounds st p).acc.map (fun r => r.place_id)).Nodup ∧
      ∀ r ∈ (addOne category bounds st p).acc,
        r.place_id ∈ (addOne category bounds st p).seen := by
  unfold addOne
  split_ifs with hc hf hb
  · refine ⟨?_, ?_⟩
    · simp only [List.map_append, List.map_cons, List.map_nil]
      rw [List.nodup_append]
      refine ⟨h1, List.nodup_singleton _, ?_⟩
      intro x hx hx2
      simp only [List.mem_singleton] at hx2
      subst hx2
      obtain ⟨r, hr, hre⟩ := List.mem_map.mp hx
      exact hc.2 (hre ▸ h2 r hr)
    · intro r hr
      rcases List.mem_append.mp hr with hin | hin
      · exact List.mem_cons_of_mem _ (h2 r hin)
      · simp only [List.mem_singleton] at hin
        subst hin
        exact List.mem_cons_self _ _
  · exact ⟨h1, h2⟩
  · exact ⟨h1, h2⟩
  · exact ⟨h1, h2⟩

/-- The identifier invariant is preserved over a whole arrival sequence. -/
theorem foldl_ids_invariant (category : String) (bounds : Option Bounds) :
    ∀ (places : List GeocodingResult) (st : SearchState),
      (st.acc.map (fun r => r.place_id)).Nodup →
      (∀ r ∈ st.acc, r.place_id ∈ st.seen) →
      ((addUniqueResults category bounds st places).acc.map
        (fun r => r.place_id)).Nodup ∧
        ∀ r ∈ (addUniqueResults category bounds st places).acc,
          r.place_id ∈ (addUniqueResults category bounds st places).seen
  | [], _, h1, h2 => ⟨h1, h2⟩
  | p :: ps, st, h1, h2 => by
      have hstep := addOne_ids_invariant category bounds st p h1 h2
      simpa [addUniqueResults] using
        foldl_ids_invariant category bounds ps (addOne category bounds st p)
          hstep.1 hstep.2

/-- `addOne` preserves the invariant that every accumulated record lies
within the supplied bounds. -/
theorem addOne_bounds_invariant (category : String) (b : Bounds) (st : SearchState)
    (p : GeocodingResult)
    (h : ∀ r ∈ st.acc, isWithinBounds (some b) r.lat r.lng = true) :
    ∀ r ∈ (addOne category (some b) st p).acc,
      isWithinBounds (some b) r.lat r.lng = true := by
  unfold addOne
  split_ifs with hc hf hb
  · intro r hr
    rcases List.mem_append.mp hr with hin | hin
    · exact h r hin
    · simp only [List.mem_singleton] at hin
      subst hin
      exact hb
  · exact h
  · exact h
  · exact h

/-- The bounds invariant is preserved over a whole arrival sequence. -/
theorem foldl_bounds_invariant (category : String) (b : Bounds) :
    ∀ (places : List GeocodingResult) (st : SearchState),
      (∀ r ∈ st.acc, isWithinBounds (some b) r.lat r.lng = true) →
      ∀ r ∈ (addUniqueResults category (some b) st places).acc,
        isWithinBounds (some b) r.lat r.lng = true
  | [], _, h => h
  | p :: ps, st, h => by
      simpa [addUniqueResults] using
        foldl_bounds_invariant category b ps (addOne category (some b) st p)
          (addOne_bounds_invariant category b st p h)

/-- `Math.atan2` is non-negative whenever its first argument is. -/
theorem atan2_nonneg (y x : ℝ) (hy : 0 ≤ y) : 0 ≤ atan2 y x := by
  unfold atan2
  by_cases h1 : 0 < x
  · rw [if_pos h1]
    have hd : 0 ≤ y / x := div_nonneg hy h1.le
    have h := Real.arctan_strictMono.monotone hd
    rwa [Real.arctan_zero] at h
  · rw [if_neg h1]
    by_cases h2 : x < 0
    · rw [if_pos h2, if_pos hy]
      have h := Real.neg_pi_div_two_lt_arctan (y / x)
      have hp := Real.pi_pos
      linarith
    · rw [if_neg h2]
      by_cases h4 : 0 < y
      · rw [if_pos h4]
        have hp := Real.pi_pos
        linarith
      · rw [if_neg h4, if_neg (by linarith : ¬y < 0)]

/-- `atan2 0 1 = 0`, the case reached when the haversine argument is zero. -/
theorem atan2_zero_one : atan2 0 1 = 0 := by
  unfold atan2
  rw [if_pos one_pos]
  norm_num [Real.arctan_zero]

/-- The haversine intermediate value is symmetric in its two endpoints. -/
theorem havA_symm (lat1 lng1 lat2 lng2 : ℚ) :
    havA lat1 lng1 lat2 lng2 = havA lat2 lng2 lat1 lng1 := by
  unfold havA
  have h1 : ((lat1 : ℝ) - (lat2 : ℝ)) * Real.pi / 180 / 2 =
      -(((lat2 : ℝ) - (lat1 : ℝ)) * Real.pi / 180 / 2) := by ring
  have h2 : ((lng1 : ℝ) - (lng2 : ℝ)) * Real.pi / 180 / 2 =
      -(((lng2 : ℝ) - (lng1 : ℝ)) * Real.pi / 180 / 2) := by ring
  rw [h1, h2, Real.sin_neg, Real.sin_neg]
  ring

/-- The haversine intermediate value vanishes on identical endpoints. -/
theorem havA_self (lat lng : ℚ) : havA lat lng lat lng = 0 := by
  unfold havA
  have h1 : ((lat : ℝ) - (lat : ℝ)) * Real.pi / 180 / 2 = 0 := by ring
  have h2 : ((lng : ℝ) - (lng : ℝ)) * Real.pi / 180 / 2 = 0 := by ring
  rw [h1, h2, Real.sin_zero]
  ring

/-- The haversine intermediate value also vanishes between longitude `0` and
longitude `360` at the equator. -/
theorem havA_wrap : havA 0 0 0 360 = 0 := by
  unfold havA
  have h1 : (((0 : ℚ) : ℝ) - ((0 : ℚ) : ℝ)) * Real.pi / 180 / 2 = 0 := by ring
  have h2 : (((360 : ℚ) : ℝ) - ((0 : ℚ) : ℝ)) * Real.pi / 180 / 2 = Real.pi := by
    push_cast
    ring
  rw [h1, h2, Real.sin_zero, Real.sin_pi]
  ring

/-- When the haversine intermediate value is zero the distance is zero. -/
theorem calculateDistance_of_havA_zero (lat1 lng1 lat2 lng2 : ℚ)
    (h : havA lat1 lng1 lat2 lng2 = 0) :
    calculateDistance lat1 lng1 lat2 lng2 = 0 := by
  unfold calculateDistance
  rw [h]
  norm_num [Real.sqrt_zero, Real.sqrt_one, atan2_zero_one]

/-- The comparator order of the final sort is transitive. -/
theorem scoreLe_trans (center : Coord) :
    ∀ a b c : GeocodingResult, scoreLe center a b → scoreLe center b c →
      scoreLe center a c := by
  intro a b c h1 h2
  simp only [scoreLe, decide_eq_true_eq] at *
  exact le_trans h2 h1

/-- The comparator order of the final sort is total. -/
theorem scoreLe_total (center : Coord) :
    ∀ a b : GeocodingResult, scoreLe center a b || scoreLe center b a := by
  intro a b
  simp only [scoreLe, Bool.or_eq_true, decide_eq_true_eq]
  exact le_total _ _

/-! ## Claims -/

/-- Claim C2: for every arrival sequence merged by the aggregator, the merged
result set contains at most one record per non-empty identifier, and a later
record whose identifier has already been seen is skipped entirely, leaving
the accumulator (and hence the first-arriving record) unchanged. -/
theorem aggregator_dedup_first_wins :
    (∀ (category : String) (bounds : Option Bounds) (places : List GeocodingResult)
        (id : String), id ≠ "" →
        List.countP (fun r => r.place_id == id)
          (addUniqueResults category bounds ⟨[], []⟩ places).acc ≤ 1) ∧
    (∀ (category : String) (bounds : Option Bounds) (st : SearchState)
        (p : GeocodingResult), p.place_id ∈ st.seen →
        addOne category bounds st p = st) := by
  constructor
  · intro category bounds places id _
    have h := (foldl_ids_invariant category bounds places ⟨[], []⟩
      (by simp) (by simp)).1
    have hcount := List.nodup_iff_count_le_one.mp h id
    simpa [List.count, List.countP_map, Function.comp] using hcount
  · intro category bounds st p h
    exact addOne_eq_of_mem_seen category bounds st p h

/-- Claim C2 witness: two records both carrying identifier `abc123` with
different ratings leave at most one record in the merged set, and the second
arrival is a no-op on a state that has already seen `abc123`. -/
theorem aggregator_dedup_first_wins_witness :
    List.countP (fun r => r.place_id == "abc123")
      (addUniqueResults "restaurants" none ⟨[], []⟩ [dupFirst, dupSecond]).acc ≤ 1 ∧
    addOne "restaurants" none ⟨["abc123"], [storedRecord dupFirst]⟩ dupSecond =
      ⟨["abc123"], [storedRecord dupFirst]⟩ := by
  constructor
  · exact aggregator_dedup_first_wins.1 "restaurants" none [dupFirst, dupSecond]
      "abc123" (by decide)
  · exact aggregator_dedup_first_wins.2 "restaurants" none
      ⟨["abc123"], [storedRecord dupFirst]⟩ dupSecond (by decide)

/-- Claim C4: the bounds containment test is true exactly when the point lies
in the rectangle, absent bounds accept everything, every record merged under
given bounds lies within them, and the final truncated output only contains
merged records — so a candidate outside the bounds never reaches the final
result, regardless of its score. -/
theorem within_bounds_spec :
    (∀ (b : Bounds) (lat lng : ℚ),
        isWithinBounds (some b) lat lng = true ↔
          (b.sw.lat ≤ lat ∧ lat ≤ b.ne.lat ∧ b.sw.lng ≤ lng ∧ lng ≤ b.ne.lng)) ∧
    (∀ lat lng : ℚ, isWithinBounds none lat lng = true) ∧
    (∀ (category : String) (b : Bounds) (places : List GeocodingResult)
        (r : GeocodingResult),
        r ∈ (addUniqueResults category (some b) ⟨[], []⟩ places).acc →
        isWithinBounds (some b) r.lat r.lng = true) ∧
    (∀ (center : Coord) (maxResults : ℕ) (l : List GeocodingResult)
        (r : GeocodingResult), r ∈ limitResults center maxResults l → r ∈ l) := by
  refine ⟨?_, ?_, ?_, ?_⟩
  · intro b lat lng
    simp [isWithinBounds, and_assoc]
  · intro lat lng
    rfl
  · intro category b places r hr
    exact foldl_bounds_invariant category b places ⟨[], []⟩ (by simp) r hr
  · intro center maxResults l r hr
    have h1 : r ∈ sortResults center l := (List.take_sublist _ _).subset hr
    exact List.mem_mergeSort.mp h1

/-- Claim C4 witness: a candidate at the center of the unit bounds is merged
and certified within bounds, and a candidate outside the unit bounds is
absent from the merged set. -/
theorem within_bounds_spec_witness :
    isWithinBounds (some unitBounds) insideCand.lat insideCand.lng = true ∧
    outsideCand ∉ (addUniqueResults "establishment" (some unitBounds) ⟨[], []⟩
      [outsideCand]).acc := by
  constructor
  · exact within_bounds_spec.2.2.1 "establishment" unitBounds [insideCand]
      insideCand (by decide)
  · intro hmem
    have h := within_bounds_spec.2.2.1 "establishment" unitBounds [outsideCand]
      outsideCand hmem
    exact absurd h (by decide)

/-- Claim C6: a text search resolves successfully exactly when the SDK is
loaded, a page with a non-ok status resolves with the partial accumulation
instead of raising, and the distance search rejects exactly when the SDK is
unavailable. -/
theorem provider_failure_policy :
    (∀ (sdk : Bool) (pages : List ProviderPage),
        (∃ l, textSearchModel sdk pages = Except.ok l) ↔ sdk = true) ∧
    (∀ (page : ProviderPage) (rest : List ProviderPage) (acc : List GeocodingResult),
        page.status ≠ PlacesStatus.ok → runTextSearch (page :: rest) acc = acc) ∧
    (∀ (category : String) (center : Coord) (maxResults : ℕ) (bounds : Option Bounds)
        (sdk : Bool) (arrivals : List GeocodingResult),
        (∃ l, searchByDistanceModel category center maxResults bounds sdk arrivals =
          Except.ok l) ↔ sdk = true) := by
  refine ⟨?_, ?_, ?_⟩
  · intro sdk pages
    cases sdk <;> simp [textSearchModel]
  · intro page rest acc h
    unfold runTextSearch
    rw [if_neg h]
  · intro category center maxResults bounds sdk arrivals
    cases sdk <;> simp [searchByDistanceModel]

/-- Claim C6 witness: with the SDK loaded, a zero-results page makes the text
search resolve successfully with an empty list. -/
theorem provider_failure_policy_witness :
    runTextSearch [zeroPage] [] = [] ∧
    (∃ l, textSearchModel true [zeroPage] = Except.ok l) := by
  constructor
  · exact provider_failure_policy.2.1 zeroPage [] [] (by decide)
  · exact (provider_failure_policy.1 true [zeroPage]).mpr rfl

/-- Claim C7 counterexample: a record with an empty identifier that passes
both the category tag filter and the bounds filter is nevertheless dropped:
the merged result set stays empty, so such records are not treated as
always-new. -/
theorem no_id_record_not_included :
    passesTypeFilter "restaurants" noIdCand.types = true ∧
    isWithinBounds none noIdCand.lat noIdCand.lng = true ∧
    (addUniqueResults "restaurants" none ⟨[], []⟩ [noIdCand]).acc = [] := by
  decide

/-- Claim C7 (amended): records lacking an identifier are never deduplicated
against each other because they are always skipped outright — an arriving
record with an empty identifier leaves the accumulator unchanged and is never
included in the merged result set. -/
theorem no_id_records_skipped (category : String) (bounds : Option Bounds)
    (st : SearchState) (p : GeocodingResult) (h : p.place_id = "") :
    addOne category bounds st p = st := by
  simp [addOne, h]

/-- Claim C7 witness: the identifier-less candidate is skipped from the empty
state. -/
theorem no_id_records_skipped_witness :
    addOne "restaurants" none ⟨[], []⟩ noIdCand = ⟨[], []⟩ :=
  no_id_records_skipped "restaurants" none ⟨[], []⟩ noIdCand (by decide)

/-- Claim C8: the classifier maps the query `sushi restaurant` to the
restaurant category, whose provider type is `restaurant`; under that type the
merge filter drops a candidate tagged only `lodging` and keeps a candidate
tagged `restaurant, food`. -/
theorem sushi_restaurant_scenario :
    detectCategoryFromQuery "sushi restaurant" = some "restaurants" ∧
    placeTypeOfCategorySL "restaurants" = some "restaurant" ∧
    (addUniqueResultsSL (some "restaurant") ⟨[], []⟩ [lodgingCand, sushiCand]).acc =
      [storedRecord sushiCand] ∧
    lodgingCand ∉ (addUniqueResultsSL (some "restaurant") ⟨[], []⟩
      [lodgingCand, sushiCand]).acc := by
  decide

/-- Claim C9: a query that is empty after trimming produces an empty result
list and issues zero provider calls. -/
theorem performSearch_blank_query (query : String) (center : Option Coord)
    (bounds : Option Bounds) (env : AppSearchEnv)
    (h : trimChars query.data = []) :
    performSearch query center bounds env = ([], 0) := by
  unfold performSearch
  rw [if_pos h]

/-- Claim C9 witness: a whitespace-only query short-circuits. -/
theorem performSearch_blank_query_witness :
    performSearch "   " none none ⟨true, [], []⟩ = ([], 0) :=
  performSearch_blank_query "   " none none ⟨true, [], []⟩ (by decide)

/-- Claim C10 counterexample: on a record whose address is missing, the
presentation mapping copies the empty address through unchanged — it is not
replaced by the literal `No address available`. -/
theorem convertToLocation_no_address_fallback :
    (convertToLocation blankResult).name = "Unknown Location" ∧
    (convertToLocation blankResult).address = "" ∧
    (convertToLocation blankResult).address ≠ "No address available" := by
  decide

/-- Claim C10 (amended): the presentation mapping is total; a missing name is
replaced by the literal `Unknown Location`, while the address is copied
through unchanged (the `No address available` fallback is applied earlier, in
the adapter conversion, not here). -/
theorem convertToLocation_defaults (r : GeocodingResult) :
    (convertToLocation r).name = (if r.name = "" then "Unknown Location" else r.name) ∧
    (convertToLocation r).address = r.formatted_address :=
  ⟨rfl, rfl⟩

/-- Claim C1: the relevance score of a record equals
`max 0 (1 - distance / 50)`; as a function of the distance it is strictly
decreasing on distances up to 50 km and identically zero from 50 km on. -/
theorem score_linear_falloff :
    (∀ (center : Coord) (p : GeocodingResult),
        calculateScore center p =
          max 0 (1 - calculateDistance center.lat center.lng p.lat p.lng / 50) ∧
        calculateScore center p =
          scoreOfDistance (calculateDistance center.lat center.lng p.lat p.lng)) ∧
    (∀ d1 d2 : ℝ, d1 < d2 → d2 ≤ 50 → scoreOfDistance d2 < scoreOfDistance d1) ∧
    (∀ d : ℝ, 50 ≤ d → scoreOfDistance d = 0) := by
  refine ⟨fun center p => ⟨rfl, rfl⟩, ?_, ?_⟩
  · intro d1 d2 h1 h2
    unfold scoreOfDistance
    have ha : (0 : ℝ) ≤ 1 - d2 / 50 := by linarith
    rw [max_eq_right ha]
    have hb : 1 - d2 / 50 < 1 - d1 / 50 := by linarith
    exact lt_of_lt_of_le hb (le_max_right _ _)
  · intro d h
    unfold scoreOfDistance
    have hd : 1 - d / 50 ≤ 0 := by linarith
    exact max_eq_left hd

/-- Claim C1 witness: the score at 10 km exceeds the score at 20 km, and the
score at 60 km is zero. -/
theorem score_linear_falloff_witness :
    scoreOfDistance 20 < scoreOfDistance 10 ∧ scoreOfDistance 60 = 0 :=
  ⟨score_linear_falloff.2.1 10 20 (by norm_num) (by norm_num),
   score_linear_falloff.2.2 60 (by norm_num)⟩

/-- Claim C3: the final output is sorted so that scores never increase along
the list, records with equal scores keep their accumulator order (stable
sort), and the score ignores the provider rating and rating count entirely
(no popularity weighting). -/
theorem ranking_sorted_stable (center : Coord) (maxResults : ℕ)
    (l : List GeocodingResult) :
    (limitResults center maxResults l).Pairwise
      (fun a b => calculateScore center b ≤ calculateScore center a) ∧
    (∀ a b : GeocodingResult, calculateScore center a = calculateScore center b →
      List.Sublist [a, b] l → List.Sublist [a, b] (sortResults center l)) ∧
    (∀ (p : GeocodingResult) (rat : Option ℚ) (tot : Option ℕ),
      calculateScore center { p with rating := rat, user_ratings_total := tot } =
        calculateScore center p) := by
  refine ⟨?_, ?_, ?_⟩
  · have hs : (l.mergeSort (scoreLe center)).Pairwise
        (fun a b => scoreLe center a b = true) :=
      List.sorted_mergeSort (scoreLe_trans center) (scoreLe_total center) l
    have hs2 : (sortResults center l).Pairwise
        (fun a b => calculateScore center b ≤ calculateScore center a) := by
      refine hs.imp ?_
      intro a b hab
      simpa [scoreLe] using hab
    exact hs2.sublist (List.take_sublist _ _)
  · intro a b hab hsub
    apply List.pair_sublist_mergeSort (scoreLe_trans center) (scoreLe_total center)
      ?_ hsub
    simp [scoreLe, hab]
  · intro p rat tot
    rfl

/-- Claim C3 witness: two equally placed records keep their arrival order
through the sort. -/
theorem ranking_sorted_stable_witness :
    List.Sublist [dupFirst, dupSecond]
      (sortResults ⟨0, 0⟩ [dupFirst, dupSecond]) :=
  (ranking_sorted_stable ⟨0, 0⟩ 80 [dupFirst, dupSecond]).2.1 dupFirst dupSecond
    rfl (List.Sublist.refl _)

/-- Claim C5 counterexample: the coordinates `(0, 0)` and `(0, 360)` are
distinct, yet their haversine distance is zero — distance zero does not imply
equal coordinate pairs. -/
theorem distance_zero_not_injective :
    calculateDistance 0 0 0 360 = 0 ∧
    ¬(((0 : ℚ), (360 : ℚ)) = ((0 : ℚ), (0 : ℚ))) := by
  refine ⟨calculateDistance_of_havA_zero 0 0 0 360 havA_wrap, ?_⟩
  intro h
  have h2 := congrArg Prod.snd h
  norm_num at h2

/-- Claim C5 (amended): the haversine distance is symmetric, non-negative
and zero on identical coordinate pairs; zero distance does not characterise
equality, since distinct coordinates describing the same point on the sphere
(such as longitudes 0 and 360) also have distance zero. -/
theorem distance_symm_nonneg_refl (lat1 lng1 lat2 lng2 : ℚ) :
    calculateDistance lat1 lng1 lat2 lng2 = calculateDistance lat2 lng2 lat1 lng1 ∧
    0 ≤ calculateDistance lat1 lng1 lat2 lng2 ∧
    calculateDistance lat1 lng1 lat1 lng1 = 0 := by
  refine ⟨?_, ?_, ?_⟩
  · unfold calculateDistance
    rw [havA_symm]
  · unfold calculateDistance
    have h := atan2_nonneg (Real.sqrt (havA lat1 lng1 lat2 lng2))
      (Real.sqrt (1 - havA lat1 lng1 lat2 lng2)) (Real.sqrt_nonneg _)
    have h2 : (0 : ℝ) ≤ 2 * atan2 (Real.sqrt (havA lat1 lng1 lat2 lng2))
        (Real.sqrt (1 - havA lat1 lng1 lat2 lng2)) := by linarith
    exact mul_nonneg (by norm_num) h2
  · exact calculateDistance_of_havA_zero lat1 lng1 lat1 lng1 (havA_self lat1 lng1)
